import Mathlib

/-!
Verification of the TradeBrain market-prediction server
(`server_src/server_core.py`, `server_src/database.py`,
`server_src/model_engine.py`, `server_src/socket_handler.py`,
`server_src/config.py`) against its natural-language specification.

The Python code is shallowly embedded: JSON-ish Python values become the
inductive `PyVal`, the SQLite tick table becomes a list of rows, floats
become real numbers in the numeric pipeline and rationals in the protocol
layer, and the external `json` library is a parameter of the definitions
that call it.
-/

set_option autoImplicit false

namespace TradeBrain

/-! ### config.py -/

namespace config

def INPUT_WINDOW : Nat := 2000
def TOTAL_PREDICT_TICKS : Nat := 2000
def PREDICT_STRIDE : Nat := 100
def OUTPUT_STEPS : Nat := TOTAL_PREDICT_TICKS / PREDICT_STRIDE
def TRAIN_LIMIT : Nat := 500000

end config

/-! ### Python values

A `PyVal` is the fragment of Python runtime values the data path touches:
JSON numbers, strings, and lists (tuples are merged with lists, since the
code only ever tests `isinstance(item, (list, tuple))`).
-/

inductive PyVal : Type
  | num (q : ℚ)
  | str (s : String)
  | pylist (xs : List PyVal)

/-- SQLite parameter binding (`sqlite3`) accepts numbers and strings but
raises an error for container values such as lists. -/
def bindable : PyVal → Bool
  | .pylist _ => false
  | _ => true

/-! ### database.py -/

/-- One row of the `ticks` table: (timestamp, price) as bound values. -/
abbrev Row := PyVal × PyVal

/-- `DatabaseManager.save_bulk_data`: per-item cleaning pass.
A string item is JSON-decoded (the decoder `jp` stands for `json.loads`;
`none` models a raised decode error) and kept when the result is a
sequence of length at least 2; any other item is kept exactly when it is
a sequence of length at least 2.  A kept item contributes its first two
fields. -/
def clean_item (jp : String → Option PyVal) : PyVal → Option Row
  | .str s =>
      match jp s with
      | some (.pylist (a :: b :: _)) => some (a, b)
      | _ => none
  | .pylist (a :: b :: _) => some (a, b)
  | _ => none

/-- `DatabaseManager.save_bulk_data`, acting on the current table `rows`.
Returns the count handed back to the caller together with the new table.
An empty input or an empty cleaned set writes nothing and returns 0.
If some cleaned value cannot be bound by SQLite, `executemany` raises,
the transaction is rolled back and the handler returns 0. -/
def save_bulk_data (jp : String → Option PyVal) (rows : List Row)
    (data_list : List PyVal) : Nat × List Row :=
  if data_list.isEmpty then (0, rows)
  else
    let cleaned := data_list.filterMap (clean_item jp)
    if cleaned.isEmpty then (0, rows)
    else if cleaned.all (fun ab => bindable ab.1 && bindable ab.2) then
      (cleaned.length, rows ++ cleaned)
    else (0, rows)

/-- SQLite comparison key used by `ORDER BY timestamp`.  The stored
timestamps of well-formed ticks are numeric; ordering between other
stored types is abstracted to a default key, which no theorem below
depends on (only lengths of fetched lists are used). -/
def tsKey : PyVal → ℚ
  | .num q => q
  | _ => 0

/-- Insertion step of a sort that is descending in the timestamp key. -/
def insertDesc (x : Row) : List Row → List Row
  | [] => [x]
  | y :: ys => if tsKey y.1 ≤ tsKey x.1 then x :: y :: ys else y :: insertDesc x ys

/-- `SELECT ... ORDER BY timestamp DESC` on the tick table. -/
def sortTsDesc (rows : List Row) : List Row :=
  rows.foldr insertDesc []

/-- Server state: the contents of the `ticks` table. -/
structure SState : Type where
  rows : List Row

/-- `DatabaseManager.get_training_data`: the `limit` most recent ticks,
returned oldest-first (the descending query result is reversed). -/
def get_training_data (limit : Nat) (st : SState) : List PyVal :=
  (((sortTsDesc st.rows).take limit).reverse).map Prod.snd

/-! ### server_core.py: requests and responses -/

/-- A decoded JSON request.  `rtype` is `req.get("type")`, `data` is
`req.get("data", [])` and `price` is `req.get("price")` (with `none`
for an absent key or JSON null). -/
structure Req : Type where
  rtype : Option String := none
  data : List PyVal := []
  price : Option PyVal := none

/-- A JSON response dictionary; absent keys are `none`. -/
structure Resp : Type where
  rtype : Option String := none
  status : Option String := none
  msg : Option String := none
  price : Option PyVal := none
  path : Option (List ℚ) := none
  count : Option Nat := none
  val_loss : Option ℚ := none

/-- The error-response shape produced throughout `server_core.py`. -/
def errResp (m : String) : Resp :=
  { status := some ("error"), msg := some m }

/-- Rendering of `req.get("type")` by the f-string in the unknown-type
branch: Python prints the value `None` as the text `None`. -/
def pyShow : Option String → String
  | none => "None"
  | some s => s

/-- `ServerCore._handle_feed_data`.  An empty `data` array is rejected;
otherwise the batch is delegated to `save_bulk_data` and the saved count
is echoed back, whatever it is. -/
def handle_feed_data (jp : String → Option PyVal) (st : SState)
    (data : List PyVal) : Resp × SState :=
  if data.isEmpty then (errResp ("No data provided"), st)
  else
    let r := save_bulk_data jp st.rows data
    ({ status := some ("saved"), count := some r.1 }, ⟨r.2⟩)

/-- `ServerCore._handle_predict`.  A missing price is rejected; otherwise
the handler fetches the most recent `INPUT_WINDOW` ticks from the
database and answers WAIT or PATH on the tick count alone.  The PATH
branch is a stub: it never touches `ModelEngine.predict` and carries no
`path` field, only a fixed message. -/
def handle_predict (st : SState) (price : Option PyVal) : Resp :=
  match price with
  | none => errResp ("No price provided")
  | some p =>
      let td := get_training_data config.INPUT_WINDOW st
      if td.length < config.INPUT_WINDOW then
        { rtype := some ("WAIT")
          msg := some ("Insufficient data: " ++ toString td.length ++ "/"
            ++ toString config.INPUT_WINDOW) }
      else
        { rtype := some ("PATH"), price := some p
          msg := some ("Prediction available") }

/-- The message of the `NameError` raised by the stray
`finally: client_socket.close()` at the end of `ServerCore._handle_train`:
`client_socket` is not a local of that method. -/
def nameErrorMsg : String := "name \x27client_socket\x27 is not defined"

/-- `ServerCore._handle_train`.  With fewer than
`INPUT_WINDOW + TOTAL_PREDICT_TICKS` ticks it returns the
insufficient-data error before entering the `try` block.  Otherwise the
`try` body calls `self.model.train(training_data)` (a call that already
raises `TypeError`, because `ModelEngine.train` takes two positional
arguments) and whichever value the `try`/`except` arms produce is
discarded by the `finally` clause, whose `client_socket.close()` raises
`NameError` on an undefined local.  That exception escapes the method,
modelled as the `Except.error` branch. -/
def handle_train (st : SState) : Except String Resp :=
  let td := get_training_data config.TRAIN_LIMIT st
  if td.length < config.INPUT_WINDOW + config.TOTAL_PREDICT_TICKS then
    .ok (errResp ("数据不足: 需要至少 "
      ++ toString (config.INPUT_WINDOW + config.TOTAL_PREDICT_TICKS)
      ++ " 条数据"))
  else
    .error nameErrorMsg

/-- `ServerCore._process_request`: dispatch on `req.get("type")` with a
blanket `except Exception` that converts any escaping exception into an
error response. -/
def process_request (jp : String → Option PyVal) (st : SState)
    (req : Req) : Resp × SState :=
  if req.rtype = some ("FEED_DATA") then handle_feed_data jp st req.data
  else if req.rtype = some ("PREDICT") then (handle_predict st req.price, st)
  else if req.rtype = some ("TRAIN") then
    match handle_train st with
    | .ok r => (r, st)
    | .error e => (errResp e, st)
  else (errResp ("Unknown request type: " ++ pyShow req.rtype), st)

/-! ### Frame loop of `_handle_client`

Both `ServerCore._handle_client` and `SocketHandler._handle_client` split
the receive buffer on newlines and run the loop below over the complete
frames.  `parse` stands for `json.loads` on a frame (with `none` for a
raised `JSONDecodeError`) and `jerr` for the rendering of that exception
in the error message.
-/

/-- Python `str.strip()` on the character list: whitespace is removed
from both ends. -/
def stripList (l : List Char) : List Char :=
  ((l.dropWhile Char.isWhitespace).reverse.dropWhile Char.isWhitespace).reverse

/-- Python `msg_str.strip()`. -/
def pyStrip (s : String) : String := String.mk (stripList s.data)

def handle_frames (jp : String → Option PyVal) (parse : String → Option Req)
    (jerr : String → String) :
    SState → List String → List Resp × SState
  | st, [] => ([], st)
  | st, f :: fs =>
      let m := pyStrip f
      if m = "" then handle_frames jp parse jerr st fs
      else
        match parse m with
        | none =>
            let rest := handle_frames jp parse jerr st fs
            (errResp ("Invalid JSON: " ++ jerr m) :: rest.1, rest.2)
        | some req =>
            let r := process_request jp st req
            let rest := handle_frames jp parse jerr r.2 fs
            (r.1 :: rest.1, rest.2)

/-! ### Python slicing and ranges

`model_engine.py` builds its windows with extended slices
`arr[start : stop : step]` and its sample grid with `range(0, limit,
stride)`.  Both are embedded for an arbitrary positive step.
-/

/-- Number of indices selected by `arr[start : stop : step]` on an array
of length `len`, for a positive `step`. -/
def sliceLen (len start stop step : Nat) : Nat :=
  (min stop len - start + step - 1) / step

/-- Python extended slice `arr[start : stop : step]` for a positive
`step`: the elements at `start`, `start + step`, ... that fall before
both `stop` and the end of the array. -/
def pySlice {α : Type} (arr : List α) (start stop step : Nat) : List α :=
  (List.range (sliceLen arr.length start stop step)).filterMap
    (fun j => arr.get? (start + step * j))

/-- Python `range(start, stop, step)` for a positive `step`. -/
def pyRange (start stop step : Nat) : List Nat :=
  (List.range ((stop - start + step - 1) / step)).map (fun j => start + step * j)

/-! ### model_engine.py: the Z-score pipeline over the reals -/

noncomputable section

/-- `np.mean`. -/
def mean (l : List ℝ) : ℝ := l.sum / l.length

/-- The population variance underlying `np.std`. -/
def variance (l : List ℝ) : ℝ :=
  ((l.map (fun x => (x - mean l) ^ 2)).sum) / l.length

/-- `np.std`: the population standard deviation. -/
def npStd (l : List ℝ) : ℝ := Real.sqrt (variance l)

/-- The clamp `if std < 1e-6: std = 1e-6` applied in both
`ModelEngine.train` and `ModelEngine.predict` before dividing. -/
def clampStd (s : ℝ) : ℝ := if s < 1e-6 then 1e-6 else s

/-- `ModelEngine.predict` normalization step, returning the z-scored
window together with the `(mean, std)` it used. -/
def normalize (l : List ℝ) : List ℝ × ℝ × ℝ :=
  (l.map (fun x => (x - mean l) / clampStd (npStd l)), mean l, clampStd (npStd l))

/-- `ModelEngine.predict` denormalization step `pred_z * std + mean`. -/
def denormalize (zs : List ℝ) (m s : ℝ) : List ℝ :=
  zs.map (fun z => z * s + m)

/-- One training sample of `ModelEngine.train`: the z-scored input
window and the z-scored future slice. -/
structure TrainSample : Type where
  input : List ℝ
  target : List ℝ

/-- The input window `prices_arr[i : i + INPUT_WINDOW]` of sample `i`. -/
def windowAt (prices : List ℝ) (i : Nat) : List ℝ :=
  pySlice prices i (i + config.INPUT_WINDOW) 1

/-- The future slice
`prices_arr[i+INPUT_WINDOW : i+INPUT_WINDOW+TOTAL_PREDICT_TICKS : PREDICT_STRIDE]`
of sample `i`. -/
def futureAt (prices : List ℝ) (i : Nat) : List ℝ :=
  pySlice prices (i + config.INPUT_WINDOW)
    (i + config.INPUT_WINDOW + config.TOTAL_PREDICT_TICKS) config.PREDICT_STRIDE

/-- The loop body of `ModelEngine.train`: both the input window and the
future slice are z-scored with the mean and clamped std of the input
window.  The time-feature channel `X_time` feeds a separate model input
and carries no price information, so it is not modelled here. -/
def mkSample (prices : List ℝ) (i : Nat) : TrainSample :=
  let w := windowAt prices i
  let m := mean w
  let s := clampStd (npStd w)
  { input := w.map (fun x => (x - m) / s)
    target := (futureAt prices i).map (fun x => (x - m) / s) }

/-- The sample-set construction of `ModelEngine.train`: `none` models the
insufficient-data error return, otherwise one sample per index of
`range(0, limit, 20)` with `limit = len(prices) - INPUT_WINDOW -
TOTAL_PREDICT_TICKS`. -/
def trainSamples (prices : List ℝ) : Option (List TrainSample) :=
  if prices.length < config.INPUT_WINDOW + config.TOTAL_PREDICT_TICKS + 100 then
    none
  else
    some ((pyRange 0
      (prices.length - config.INPUT_WINDOW - config.TOTAL_PREDICT_TICKS) 20).map
      (mkSample prices))

end

/-! ### Spec-side predicate for claim C4 -/

/-- Stated from the specification, not from the code: a well-formed
FEED_DATA item is exactly a `[timestamp, price]` pair of two numbers. -/
def wellFormedPair : PyVal → Bool
  | .pylist [.num _, .num _] => true
  | _ => false

/-! ## Helper lemmas -/

theorem length_insertDesc (x : Row) (l : List Row) :
    (insertDesc x l).length = l.length + 1 := by
  induction l with
  | nil => rfl
  | cons y ys ih =>
      by_cases h : tsKey y.1 ≤ tsKey x.1 <;> simp [insertDesc, h, ih]

theorem length_sortTsDesc (rows : List Row) :
    (sortTsDesc rows).length = rows.length := by
  induction rows with
  | nil => rfl
  | cons r rs ih => simp [sortTsDesc, List.foldr] at ih ⊢
                    rw [length_insertDesc, ih]

theorem length_get_training_data (limit : Nat) (st : SState) :
    (get_training_data limit st).length = min limit st.rows.length := by
  simp [get_training_data, List.length_take, length_sortTsDesc]

theorem filterMap_eq_map_of_forall {α β : Type} (l : List α)
    (f : α → Option β) (g : α → β) (h : ∀ a ∈ l, f a = some (g a)) :
    l.filterMap f = l.map g := by
  induction l with
  | nil => rfl
  | cons a as ih =>
      simp only [List.filterMap_cons, List.map_cons, h a (by simp)]
      exact congrArg _ (ih fun b hb => h b (by simp [hb]))

theorem getD_map_range {α : Type} (c j : Nat) (g : Nat → α) (d : α)
    (h : j < c) : ((List.range c).map g).getD j d = g j := by
  rw [List.getD_eq_getElem _ _ (by simp [h])]
  simp

theorem sliceLen_index_lt (len start stop step j : Nat) (hstep : 0 < step)
    (hj : j < sliceLen len start stop step) : start + step * j < min stop len := by
  have h1 : (j + 1) * step ≤ min stop len - start + step - 1 :=
    (Nat.le_div_iff_mul_le hstep).1 hj
  have h2 : step * j + step = (j + 1) * step := by ring
  omega

theorem pySlice_eq_map (arr : List ℝ) (start stop step : Nat)
    (hstep : 0 < step) :
    pySlice arr start stop step =
      (List.range (sliceLen arr.length start stop step)).map
        (fun j => arr.getD (start + step * j) 0) := by
  refine filterMap_eq_map_of_forall _ _ _ (fun j hj => ?_)
  have hlt : start + step * j < arr.length := by
    have := sliceLen_index_lt arr.length start stop step j hstep
      (by simpa using hj)
    omega
  rw [List.getD_eq_getElem _ _ hlt]
  simp [List.get?_eq_getElem?, hlt]

theorem length_pySlice (arr : List ℝ) (start stop step : Nat)
    (hstep : 0 < step) :
    (pySlice arr start stop step).length = sliceLen arr.length start stop step := by
  rw [pySlice_eq_map arr start stop step hstep]
  simp

theorem length_futureAt (prices : List ℝ) (i : Nat)
    (h : i + config.INPUT_WINDOW + config.TOTAL_PREDICT_TICKS ≤ prices.length) :
    (futureAt prices i).length = config.OUTPUT_STEPS := by
  rw [futureAt, length_pySlice _ _ _ _ (by norm_num [config.PREDICT_STRIDE])]
  simp only [config.INPUT_WINDOW, config.TOTAL_PREDICT_TICKS,
    config.PREDICT_STRIDE, config.OUTPUT_STEPS, sliceLen] at h ⊢
  omega

theorem getD_futureAt (prices : List ℝ) (i j : Nat)
    (h : i + config.INPUT_WINDOW + config.TOTAL_PREDICT_TICKS ≤ prices.length)
    (hj : j < config.OUTPUT_STEPS) :
    (futureAt prices i).getD j 0 =
      prices.getD (i + config.INPUT_WINDOW + config.PREDICT_STRIDE * j) 0 := by
  rw [futureAt, pySlice_eq_map _ _ _ _ (by norm_num [config.PREDICT_STRIDE])]
  refine getD_map_range _ _ _ _ ?_
  simp only [config.INPUT_WINDOW, config.TOTAL_PREDICT_TICKS,
    config.PREDICT_STRIDE, config.OUTPUT_STEPS, sliceLen] at h hj ⊢
  omega

theorem clampStd_pos (s : ℝ) : 0 < clampStd s ∧ (1e-6 : ℝ) ≤ clampStd s := by
  by_cases hc : s < 1e-6
  · simp only [clampStd, if_pos hc]
    norm_num
  · simp only [clampStd, if_neg hc]
    push_neg at hc
    constructor
    · linarith [show (0:ℝ) < 1e-6 by norm_num]
    · exact hc

theorem npStd_replicate (n : Nat) (c : ℝ) : npStd (List.replicate n c) = 0 := by
  rw [npStd]
  cases n with
  | zero => simp [variance, mean]
  | succ m =>
      have hm : mean (List.replicate (m + 1) c) = c := by
        have h1 : ((m : ℝ) + 1) ≠ 0 := by positivity
        field_simp [mean, List.sum_replicate, nsmul_eq_mul]
      simp [variance, hm, List.map_replicate]

/-! ## Claims -/

/-- C5: for every window with nonzero variance, applying `normalize` and
then `denormalize` with the same `(mean, std)` returned by `normalize` is
the identity on the price series: `denormalize` computes
`z * std + mean`, the algebraic inverse of `z = (price - mean) / std`.
(The clamped divisor is never zero, so the round trip is exact.) -/
theorem normalize_denormalize_roundtrip (l : List ℝ) (h : variance l ≠ 0) :
    denormalize (normalize l).1 (normalize l).2.1 (normalize l).2.2 = l := by
  have hs : clampStd (npStd l) ≠ 0 := ne_of_gt (clampStd_pos (npStd l)).1
  have hv : variance l ≠ 0 := h
  rw [normalize, denormalize]
  rw [List.map_map]
  conv_rhs => rw [← List.map_id l]
  refine List.map_congr_left (fun x hx => ?_)
  field_simp

/-- Witness for C5 at the window `[1, 2]`, whose variance is nonzero. -/
theorem normalize_denormalize_roundtrip_witness :
    denormalize (normalize [(1:ℝ), 2]).1 (normalize [(1:ℝ), 2]).2.1
      (normalize [(1:ℝ), 2]).2.2 = [(1:ℝ), 2] :=
  normalize_denormalize_roundtrip [(1:ℝ), 2] (by norm_num [variance, mean])

/-- C6: for every window whose standard deviation is below `1e-6`, the
divisor is clamped to `1e-6` before the z-score division, so the divisor
used by normalization is always at least `1e-6` and in particular never
zero; and a constant window (all prices equal) indeed has standard
deviation `0 < 1e-6`. -/
theorem std_clamp_floor :
    (∀ l : List ℝ,
      (npStd l < 1e-6 → clampStd (npStd l) = 1e-6) ∧
      (1e-6 : ℝ) ≤ clampStd (npStd l) ∧ 0 < clampStd (npStd l)) ∧
    (∀ (n : Nat) (c : ℝ), npStd (List.replicate n c) = 0) := by
  constructor
  · intro l
    refine ⟨fun hc => ?_, (clampStd_pos (npStd l)).2, (clampStd_pos (npStd l)).1⟩
    simp only [clampStd, if_pos hc]
  · exact npStd_replicate

/-- Witness for C6 at the constant window `[5, 5]`. -/
theorem std_clamp_floor_witness :
    npStd (List.replicate 2 (5:ℝ)) < 1e-6 ∧
      clampStd (npStd (List.replicate 2 (5:ℝ))) = 1e-6 := by
  have h0 : npStd (List.replicate 2 (5:ℝ)) = 0 := std_clamp_floor.2 2 5
  refine ⟨by rw [h0]; norm_num, (std_clamp_floor.1 _).1 (by rw [h0]; norm_num)⟩

/-- C7: the training-set builder rejects a history shorter than
`INPUT_WINDOW + TOTAL_PREDICT_TICKS + 100` (producing no samples), and on
an accepted history produces exactly `ceil(limit / 20)` samples, with
`limit = len(prices) - INPUT_WINDOW - TOTAL_PREDICT_TICKS` (the Nat
division `(limit + 19) / 20` is that ceiling). -/
theorem trainingSetBuilder_sample_count (prices : List ℝ) :
    (prices.length < config.INPUT_WINDOW + config.TOTAL_PREDICT_TICKS + 100 →
      trainSamples prices = none) ∧
    (config.INPUT_WINDOW + config.TOTAL_PREDICT_TICKS + 100 ≤ prices.length →
      ∃ s, trainSamples prices = some s ∧
        s.length =
          (prices.length - config.INPUT_WINDOW - config.TOTAL_PREDICT_TICKS + 19) / 20) := by
  constructor
  · intro h
    simp [trainSamples, h]
  · intro h
    refine ⟨_, by rw [trainSamples, if_neg (by omega)], ?_⟩
    simp [pyRange]

/-- Witness for C7: a history of 4099 prices is rejected, and one of 4100
prices yields `ceil(100 / 20) = 5` samples. -/
theorem trainingSetBuilder_sample_count_witness :
    ((List.replicate 4099 (0:ℝ)).length <
        config.INPUT_WINDOW + config.TOTAL_PREDICT_TICKS + 100 ∧
      trainSamples (List.replicate 4099 (0:ℝ)) = none) ∧
    (config.INPUT_WINDOW + config.TOTAL_PREDICT_TICKS + 100 ≤
        (List.replicate 4100 (0:ℝ)).length ∧
      ∃ s, trainSamples (List.replicate 4100 (0:ℝ)) = some s ∧ s.length = 5) := by
  have h1 : (List.replicate 4099 (0:ℝ)).length <
      config.INPUT_WINDOW + config.TOTAL_PREDICT_TICKS + 100 := by
    rw [List.length_replicate]
    norm_num [config.INPUT_WINDOW, config.TOTAL_PREDICT_TICKS]
  have h2 : config.INPUT_WINDOW + config.TOTAL_PREDICT_TICKS + 100 ≤
      (List.replicate 4100 (0:ℝ)).length := by
    rw [List.length_replicate]
    norm_num [config.INPUT_WINDOW, config.TOTAL_PREDICT_TICKS]
  obtain ⟨s, hs, hlen⟩ :=
    (trainingSetBuilder_sample_count (List.replicate 4100 (0:ℝ))).2 h2
  refine ⟨⟨h1, (trainingSetBuilder_sample_count (List.replicate 4099 (0:ℝ))).1 h1⟩,
    h2, s, hs, ?_⟩
  rw [hlen, List.length_replicate]
  norm_num [config.INPUT_WINDOW, config.TOTAL_PREDICT_TICKS]

theorem getD_map_real (l : List ℝ) (f : ℝ → ℝ) (j : Nat) (h : j < l.length) :
    (l.map f).getD j 0 = f (l.getD j 0) := by
  rw [List.getD_eq_getElem _ _ (by simp [h]), List.getD_eq_getElem _ _ h,
    List.getElem_map]

/-- C3: every training sample targets the future prices z-scored with the
mean and (clamped) standard deviation of its own input window — the
`n`-th sample starts at `i = 20 * n`, its target has exactly
`OUTPUT_STEPS = 20` entries, and entry `j` is
`(prices[i + INPUT_WINDOW + PREDICT_STRIDE * j] - mean(window)) / std(window)`
with `window = prices[i : i + INPUT_WINDOW]` — the future slice is the
evenly spaced subsample `prices[i+W : i+W+horizon : stride_out]`, never
normalized with its own statistics. -/
theorem training_target_normalization (prices : List ℝ) (s : List TrainSample)
    (n j : Nat) (hs : trainSamples prices = some s) (hn : n < s.length)
    (hj : j < config.OUTPUT_STEPS) :
    (s.get ⟨n, hn⟩).target.length = config.OUTPUT_STEPS ∧
    (s.get ⟨n, hn⟩).target.getD j 0 =
      (prices.getD (20 * n + config.INPUT_WINDOW + config.PREDICT_STRIDE * j) 0
          - mean (windowAt prices (20 * n))) /
        clampStd (npStd (windowAt prices (20 * n))) := by
  have hcond : ¬ prices.length <
      config.INPUT_WINDOW + config.TOTAL_PREDICT_TICKS + 100 := by
    intro hless
    rw [trainSamples, if_pos hless] at hs
    exact Option.noConfusion hs
  rw [trainSamples, if_neg hcond] at hs
  have hseq := (Option.some.inj hs).symm
  subst hseq
  have hnn : n < (prices.length - config.INPUT_WINDOW
      - config.TOTAL_PREDICT_TICKS + 19) / 20 := by
    simpa [pyRange] using hn
  have hstep : 20 * n < prices.length - config.INPUT_WINDOW
      - config.TOTAL_PREDICT_TICKS := by
    have h1 : (n + 1) * 20 ≤ prices.length - config.INPUT_WINDOW
        - config.TOTAL_PREDICT_TICKS + 19 :=
      (Nat.le_div_iff_mul_le (by norm_num)).1 hnn
    have h2 : 20 * n + 20 = (n + 1) * 20 := by ring
    omega
  have hfut : 20 * n + config.INPUT_WINDOW + config.TOTAL_PREDICT_TICKS
      ≤ prices.length := by
    simp only [config.INPUT_WINDOW, config.TOTAL_PREDICT_TICKS] at hcond hstep ⊢
    omega
  have hget : ((pyRange 0 (prices.length - config.INPUT_WINDOW
      - config.TOTAL_PREDICT_TICKS) 20).map (mkSample prices)).get ⟨n, hn⟩ =
      mkSample prices (20 * n) := by
    rw [List.get_eq_getElem, List.getElem_map]
    simp [pyRange]
  rw [hget]
  have htarget : (mkSample prices (20 * n)).target =
      (futureAt prices (20 * n)).map
        (fun x => (x - mean (windowAt prices (20 * n))) /
          clampStd (npStd (windowAt prices (20 * n)))) := rfl
  rw [htarget]
  have hjlen : j < (futureAt prices (20 * n)).length := by
    rw [length_futureAt _ _ hfut]
    exact hj
  constructor
  · rw [List.length_map, length_futureAt _ _ hfut]
  · rw [getD_map_real _ _ _ hjlen, getD_futureAt _ _ _ hfut hj]

/-- Witness for C3 at a constant history of 4100 prices, sample 0,
target entry 0. -/
theorem training_target_normalization_witness :
    ∃ s, trainSamples (List.replicate 4100 (1:ℝ)) = some s ∧
      ∃ hn : 0 < s.length,
        (s.get ⟨0, hn⟩).target.length = config.OUTPUT_STEPS := by
  have hs : trainSamples (List.replicate 4100 (1:ℝ)) =
      some ((pyRange 0 ((List.replicate 4100 (1:ℝ)).length
        - config.INPUT_WINDOW - config.TOTAL_PREDICT_TICKS) 20).map
        (mkSample (List.replicate 4100 (1:ℝ)))) := by
    rw [trainSamples, if_neg]
    rw [List.length_replicate]
    norm_num [config.INPUT_WINDOW, config.TOTAL_PREDICT_TICKS]
  have hn : 0 < ((pyRange 0 ((List.replicate 4100 (1:ℝ)).length
      - config.INPUT_WINDOW - config.TOTAL_PREDICT_TICKS) 20).map
      (mkSample (List.replicate 4100 (1:ℝ)))).length := by
    rw [List.length_map, pyRange, List.length_map, List.length_range,
      List.length_replicate]
    norm_num [config.INPUT_WINDOW, config.TOTAL_PREDICT_TICKS]
  exact ⟨_, hs, hn,
    (training_target_normalization (List.replicate 4100 (1:ℝ)) _ 0 0 hs hn
      (by norm_num [config.OUTPUT_STEPS, config.TOTAL_PREDICT_TICKS,
        config.PREDICT_STRIDE])).1⟩

theorem handle_frames_length (jp : String → Option PyVal)
    (parse : String → Option Req) (jerr : String → String) :
    ∀ (frames : List String) (st : SState),
    (handle_frames jp parse jerr st frames).1.length =
      (frames.filter (fun f => !(pyStrip f = ""))).length := by
  intro frames
  induction frames with
  | nil => intro st; rfl
  | cons f fs ih =>
      intro st
      by_cases hb : pyStrip f = ""
      · simp [handle_frames, hb, ih]
      · cases hp : parse (pyStrip f) with
        | none => simp [handle_frames, hb, hp, ih]
        | some req => simp [handle_frames, hb, hp, ih]

/-- C10: a frame that is empty (or whitespace-only) after stripping is
skipped silently — it produces no response and the rest of the buffer is
processed as if it were absent; in general the response list has exactly
one entry per non-blank frame. -/
theorem blank_frame_skipped (jp : String → Option PyVal)
    (parse : String → Option Req) (jerr : String → String) (st : SState) :
    (∀ f fs, pyStrip f = "" →
      handle_frames jp parse jerr st (f :: fs) =
        handle_frames jp parse jerr st fs) ∧
    (∀ frames, (handle_frames jp parse jerr st frames).1.length =
      (frames.filter (fun f => !(pyStrip f = ""))).length) := by
  constructor
  · intro f fs h
    simp [handle_frames, h]
  · intro frames
    exact handle_frames_length jp parse jerr frames st

/-- Witness for C10: a whitespace frame before a live frame is dropped
without producing a response. -/
theorem blank_frame_skipped_witness :
    handle_frames (fun _ => none) (fun _ => none) (fun s => s) ⟨[]⟩
        [" ", "x"] =
      handle_frames (fun _ => none) (fun _ => none) (fun s => s) ⟨[]⟩ ["x"] :=
  (blank_frame_skipped (fun _ => none) (fun _ => none) (fun s => s) ⟨[]⟩).1
    " " ["x"] (by decide)

/-- C9 counterexample: a request of unknown type `FOO` is answered with
the message `Unknown request type: FOO`, not with the exact string
`unknown type` the claim requires. -/
theorem unknown_type_msg_counterexample :
    (process_request (fun _ => none) ⟨[]⟩ { rtype := some ("FOO") }).1.msg
        = some ("Unknown request type: FOO") ∧
      some ("Unknown request type: FOO") ≠ some ("unknown type") := by
  constructor
  · rfl
  · decide

/-- C9 (amended): for every well-formed request whose type is none of
FEED_DATA, PREDICT and TRAIN, the response is
`{status: error, msg: "Unknown request type: <type>"}` (with a missing
type rendered as `None`), and the store is untouched. -/
theorem unknown_type_response (jp : String → Option PyVal) (st : SState)
    (req : Req) (h1 : req.rtype ≠ some ("FEED_DATA"))
    (h2 : req.rtype ≠ some ("PREDICT")) (h3 : req.rtype ≠ some ("TRAIN")) :
    (process_request jp st req).1 =
      errResp ("Unknown request type: " ++ pyShow req.rtype) ∧
    (process_request jp st req).2 = st := by
  rw [process_request, if_neg h1, if_neg h2, if_neg h3]
  exact ⟨rfl, rfl⟩

/-- Witness for C9 (amended) at the request type `FOO`. -/
theorem unknown_type_response_witness :
    (process_request (fun _ => none) ⟨[]⟩ { rtype := some ("FOO") }).1 =
      errResp ("Unknown request type: "
        ++ pyShow (Req.rtype { rtype := some ("FOO") })) :=
  (unknown_type_response (fun _ => none) ⟨[]⟩ { rtype := some ("FOO") }
    (by decide) (by decide) (by decide)).1

/-- C8 counterexample: the non-empty batch `[[1]]` consists entirely of
malformed items (arity 1), yet the response is
`{status: saved, count: 0}`, not the `{status: error}` the claim
requires. -/
theorem feed_data_saved_zero_counterexample :
    (handle_feed_data (fun _ => none) ⟨[]⟩ [PyVal.pylist [PyVal.num 1]]).1
        = { status := some ("saved"), count := some 0 } ∧
      (handle_feed_data (fun _ => none) ⟨[]⟩ [PyVal.pylist [PyVal.num 1]]).1.status
        ≠ some ("error") := by
  constructor
  · rfl
  · decide

/-- C8 (amended): the FEED_DATA response is `{status: error, msg}`
exactly when the data array is empty; every non-empty array — including
one consisting entirely of malformed items — is answered with
`{status: saved, count}` where the count comes from the store and may be
0 with nothing actually written. -/
theorem feed_data_response_shape (jp : String → Option PyVal) (st : SState)
    (data : List PyVal) :
    (data.isEmpty = true →
      handle_feed_data jp st data = (errResp ("No data provided"), st)) ∧
    (data.isEmpty = false →
      (handle_feed_data jp st data).1 =
        { status := some ("saved")
          count := some (save_bulk_data jp st.rows data).1 } ∧
      (handle_feed_data jp st data).2 = ⟨(save_bulk_data jp st.rows data).2⟩) := by
  constructor
  · intro h
    simp [handle_feed_data, h]
  · intro h
    rw [handle_feed_data, if_neg (by simp [h])]
    exact ⟨rfl, rfl⟩

/-- Witness for C8 (amended): the empty batch is rejected and the
malformed singleton batch `[7]` is answered with saved count 0. -/
theorem feed_data_response_shape_witness :
    handle_feed_data (fun _ => none) ⟨[]⟩ [] =
        (errResp ("No data provided"), (⟨[]⟩ : SState)) ∧
      (handle_feed_data (fun _ => none) ⟨[]⟩ [PyVal.num 7]).1 =
        { status := some ("saved")
          count := some (save_bulk_data (fun _ => none) [] [PyVal.num 7]).1 } :=
  ⟨(feed_data_response_shape (fun _ => none) ⟨[]⟩ []).1 (by decide),
    ((feed_data_response_shape (fun _ => none) ⟨[]⟩ [PyVal.num 7]).2
      (by decide)).1⟩

/-! C1 -/

/-- C1 counterexample: with 2000 ticks in the store (a full window) the
PREDICT response does have type PATH, but it carries no `path` field at
all — only a fixed message — so the claimed `{type: PATH, price, path}`
with a 20-element pipeline-produced path is false. -/
theorem predict_no_path_counterexample :
    2000 ≤ (get_training_data config.INPUT_WINDOW
        ⟨(List.range 2000).map (fun k : ℕ => (PyVal.num k, PyVal.num k))⟩).length ∧
    (handle_predict
        ⟨(List.range 2000).map (fun k : ℕ => (PyVal.num k, PyVal.num k))⟩
        (some (PyVal.num 5))).rtype = some ("PATH") ∧
    (handle_predict
        ⟨(List.range 2000).map (fun k : ℕ => (PyVal.num k, PyVal.num k))⟩
        (some (PyVal.num 5))).path = none := by
  have hlen : (get_training_data config.INPUT_WINDOW
      ⟨(List.range 2000).map (fun k : ℕ => (PyVal.num k, PyVal.num k))⟩).length
      = 2000 := by
    rw [length_get_training_data]
    dsimp only
    rw [List.length_map, List.length_range]
    norm_num [config.INPUT_WINDOW]
  refine ⟨le_of_eq hlen.symm, ?_, ?_⟩ <;>
    rw [handle_predict, if_neg (by rw [hlen]; norm_num [config.INPUT_WINDOW])]

/-- C1 (amended): PREDICT with a price does not feed any live window and
never calls the predictor; it counts the most recent `INPUT_WINDOW`
ticks in the store, and with fewer than `W = 2000` of them answers
`{type: WAIT, msg: "Insufficient data: <n>/<W>"}`, while with a full
window it answers `{type: PATH, price, msg: "Prediction available"}`
carrying no path. -/
theorem predict_wait_path_shape (rows : List Row) (p : PyVal) :
    (rows.length < config.INPUT_WINDOW →
      handle_predict ⟨rows⟩ (some p) =
        { rtype := some ("WAIT")
          msg := some ("Insufficient data: " ++ toString rows.length ++ "/"
            ++ toString config.INPUT_WINDOW) }) ∧
    (config.INPUT_WINDOW ≤ rows.length →
      handle_predict ⟨rows⟩ (some p) =
        { rtype := some ("PATH"), price := some p
          msg := some ("Prediction available") }) := by
  constructor
  · intro h
    have hlen : (get_training_data config.INPUT_WINDOW ⟨rows⟩).length
        = rows.length := by
      rw [length_get_training_data]
      dsimp only
      omega
    rw [handle_predict, hlen, if_pos h]
  · intro h
    have hlen : (get_training_data config.INPUT_WINDOW ⟨rows⟩).length
        = config.INPUT_WINDOW := by
      rw [length_get_training_data]
      dsimp only
      omega
    rw [handle_predict, hlen, if_neg (by omega)]

/-- Witness for C1 (amended): an empty store answers WAIT 0/2000, and a
2000-tick store answers PATH without a path. -/
theorem predict_wait_path_shape_witness :
    handle_predict ⟨[]⟩ (some (PyVal.num 5)) =
        { rtype := some ("WAIT")
          msg := some ("Insufficient data: " ++ toString (List.length ([] : List Row))
            ++ "/" ++ toString config.INPUT_WINDOW) } ∧
      handle_predict ⟨(List.range 2000).map (fun k : ℕ => (PyVal.num k, PyVal.num k))⟩
          (some (PyVal.num 5)) =
        { rtype := some ("PATH"), price := some (PyVal.num 5)
          msg := some ("Prediction available") } :=
  ⟨(predict_wait_path_shape [] (PyVal.num 5)).1
      (by norm_num [config.INPUT_WINDOW]),
    (predict_wait_path_shape
        ((List.range 2000).map (fun k : ℕ => (PyVal.num k, PyVal.num k)))
        (PyVal.num 5)).2
      (by rw [List.length_map, List.length_range]
          norm_num [config.INPUT_WINDOW])⟩

/-! C2 -/

/-- C2: whenever the store holds at least
`INPUT_WINDOW + TOTAL_PREDICT_TICKS = 4000` ticks, TRAIN never reaches a
`{status: ok, val_loss}` response: the stray
`finally: client_socket.close()` in `_handle_train` raises `NameError`
on an undefined local (after `self.model.train(training_data)` has
already failed for being called with one argument instead of two), and
the blanket handler in `_process_request` converts it into
`{status: error, msg: "name client_socket is not defined"}`. -/
theorem train_always_errors (jp : String → Option PyVal) (st : SState)
    (h : config.INPUT_WINDOW + config.TOTAL_PREDICT_TICKS ≤ st.rows.length) :
    (process_request jp st { rtype := some ("TRAIN") }).1 =
        errResp nameErrorMsg ∧
      (process_request jp st { rtype := some ("TRAIN") }).1.status ≠ some ("ok") := by
  have hc : ¬ (get_training_data config.TRAIN_LIMIT st).length <
      config.INPUT_WINDOW + config.TOTAL_PREDICT_TICKS := by
    rw [length_get_training_data]
    simp only [config.TRAIN_LIMIT, config.INPUT_WINDOW,
      config.TOTAL_PREDICT_TICKS] at h ⊢
    omega
  have hp : (process_request jp st { rtype := some ("TRAIN") }).1 =
      errResp nameErrorMsg := by
    rw [process_request, if_neg (by decide), if_neg (by decide),
      if_pos rfl, handle_train, if_neg hc]
  exact ⟨hp, by rw [hp]; decide⟩

/-- Witness for C2 at a concrete store of exactly 4000 ticks. -/
theorem train_always_errors_witness :
    config.INPUT_WINDOW + config.TOTAL_PREDICT_TICKS ≤
        (SState.rows ⟨(List.range 4000).map
          (fun k : ℕ => (PyVal.num k, PyVal.num k))⟩).length ∧
      (process_request (fun _ => none)
        ⟨(List.range 4000).map (fun k : ℕ => (PyVal.num k, PyVal.num k))⟩
        { rtype := some ("TRAIN") }).1 = errResp nameErrorMsg := by
  have h : config.INPUT_WINDOW + config.TOTAL_PREDICT_TICKS ≤
      (SState.rows ⟨(List.range 4000).map
        (fun k : ℕ => (PyVal.num k, PyVal.num k))⟩).length := by
    dsimp only
    rw [List.length_map, List.length_range]
    norm_num [config.INPUT_WINDOW, config.TOTAL_PREDICT_TICKS]
  exact ⟨h, (train_always_errors (fun _ => none) _ h).1⟩

/-! C4 -/

theorem clean_item_of_wellFormed (jp : String → Option PyVal) (it : PyVal)
    (h : wellFormedPair it = true) :
    ∃ a b : ℚ, clean_item jp it = some (PyVal.num a, PyVal.num b) := by
  cases it with
  | num q => simp [wellFormedPair] at h
  | str s => simp [wellFormedPair] at h
  | pylist xs =>
      match xs, h with
      | [PyVal.num a, PyVal.num b], _ => exact ⟨a, b, rfl⟩

/-- C4 counterexample: the batch `[[1, 2, 3]]` contains no well-formed
`[timestamp, price]` pair (its single item has arity 3), yet
`save_bulk_data` does not filter the item out: it returns count 1 and
writes the truncated row `(1, 2)`. -/
theorem save_bulk_arity_counterexample :
    [PyVal.pylist [PyVal.num 1, PyVal.num 2, PyVal.num 3]].all wellFormedPair
        = false ∧
      save_bulk_data (fun _ => none) []
          [PyVal.pylist [PyVal.num 1, PyVal.num 2, PyVal.num 3]]
        = (1, [(PyVal.num 1, PyVal.num 2)]) := by
  exact ⟨rfl, rfl⟩

/-- C4 (amended): items that are not sequences of at least two fields
(or strings decoding to such) are filtered out before the transaction,
but an item of arity greater than 2 is truncated to its first two fields
and inserted, not filtered; the call returns the number of cleaned items
inserted, so a batch of n well-formed `[timestamp, price]` pairs returns
n; and if the cleaned set is empty it returns 0 and performs no
writes. -/
theorem save_bulk_cleaning (jp : String → Option PyVal) (rows : List Row)
    (items : List PyVal) :
    (items.all wellFormedPair = true →
      save_bulk_data jp rows items =
        (items.length, rows ++ items.filterMap (clean_item jp))) ∧
    ((items.filterMap (clean_item jp)).isEmpty = true →
      save_bulk_data jp rows items = (0, rows)) := by
  constructor
  · intro hw
    have hall : ∀ it ∈ items, wellFormedPair it = true := by
      intro it hit
      exact List.all_eq_true.1 hw it hit
    have hsome : ∀ it ∈ items, clean_item jp it =
        some ((clean_item jp it).getD (PyVal.num 0, PyVal.num 0)) := by
      intro it hit
      obtain ⟨a, b, hab⟩ := clean_item_of_wellFormed jp it (hall it hit)
      rw [hab]
      rfl
    have hmap : items.filterMap (clean_item jp) =
        items.map (fun it => (clean_item jp it).getD (PyVal.num 0, PyVal.num 0)) :=
      filterMap_eq_map_of_forall _ _ _ hsome
    have hbind : (items.filterMap (clean_item jp)).all
        (fun ab => bindable ab.1 && bindable ab.2) = true := by
      rw [List.all_eq_true]
      intro ab hab
      obtain ⟨it, hit, habs⟩ := List.mem_filterMap.1 hab
      obtain ⟨a, b, hcl⟩ := clean_item_of_wellFormed jp it (hall it hit)
      rw [hcl] at habs
      cases habs
      rfl
    cases hitems : items with
    | nil => simp [save_bulk_data]
    | cons x xs =>
        rw [← hitems]
        have hne : items.isEmpty = false := by rw [hitems]; rfl
        have hcne : (items.filterMap (clean_item jp)).isEmpty = false := by
          rw [hmap, hitems]
          rfl
        rw [save_bulk_data, if_neg (by rw [hne]; exact Bool.false_ne_true),
          if_neg (by rw [hcne]; exact Bool.false_ne_true), if_pos hbind, hmap,
          List.length_map]
  · intro hempty
    cases hitems : items with
    | nil => simp [save_bulk_data]
    | cons x xs =>
        rw [← hitems]
        have hne : items.isEmpty = false := by rw [hitems]; rfl
        rw [save_bulk_data, if_neg (by rw [hne]; exact Bool.false_ne_true),
          if_pos hempty]

/-- Witness for C4 (amended): the well-formed batch `[[1, 2]]` is saved
with count 1, and the fully-filtered batch `[7]` writes nothing. -/
theorem save_bulk_cleaning_witness :
    save_bulk_data (fun _ => none) [] [PyVal.pylist [PyVal.num 1, PyVal.num 2]] =
        ([PyVal.pylist [PyVal.num 1, PyVal.num 2]].length,
          [] ++ [PyVal.pylist [PyVal.num 1, PyVal.num 2]].filterMap
            (clean_item (fun _ => none))) ∧
      save_bulk_data (fun _ => none) [(PyVal.num 0, PyVal.num 0)] [PyVal.num 7] =
        (0, [(PyVal.num 0, PyVal.num 0)]) :=
  ⟨(save_bulk_cleaning (fun _ => none) []
      [PyVal.pylist [PyVal.num 1, PyVal.num 2]]).1 rfl,
    (save_bulk_cleaning (fun _ => none) [(PyVal.num 0, PyVal.num 0)]
      [PyVal.num 7]).2 rfl⟩

end TradeBrain
